import Mathlib

/-
Shallow embedding of osquery/tables/system/darwin/sip_config.cpp.

The file models:
  - the osquery Status type (code 0 = ok, nonzero = failure);
  - the fixed flag catalogue kRootlessConfigFlags (a std::map, so it
    enumerates in lexicographic key order);
  - genCsrConfigFromNvram, which reads the csr-active-config property
    from the IODeviceTree options registry node; the IOKit environment
    (node availability, kern_return of the properties fetch, and the
    resulting property dictionary pointer) is abstracted into NvramEnv;
  - genSIPConfig, which gates on the OS version record, checks the two
    weakly linked symbols, builds the aggregate "sip" row and the eight
    per-flag rows, reusing a single mutable Row across the loop exactly
    as the C++ does.

Machine integers are modelled as Nat with explicit reductions mod 2^32
or 256 where the width matters.  Fallible paths (std::stoi throwing)
are modelled with Except.
-/

/-- osquery Status: code 0 with a message means success, nonzero means
failure. -/
structure Status where
  code : Nat
  message : String
deriving DecidableEq

/-- Status::ok() is true exactly when the code is 0. -/
def Status.ok (s : Status) : Bool := s.code == 0

/-- A CoreFoundation property value: either a CFData byte buffer or a
value of some other type id. -/
inductive CFValue where
  | data (bytes : List Nat)
  | other
deriving DecidableEq

/-- CFGetTypeID(v) == CFDataGetTypeID() test. -/
def CFValue.isData : CFValue → Bool
  | CFValue.data _ => true
  | CFValue.other => false

/-- A CF dictionary, modelled as an association list from keys to
values. -/
abbrev CFDictionary := List (String × CFValue)

/-- CFDictionaryGetValueIfPresent: look up a key, returning the value
when present. -/
def cfDictionaryGetValueIfPresent (d : CFDictionary) (k : String) : Option CFValue :=
  match d with
  | [] => none
  | (k2, v) :: rest => if k2 = k then some v else cfDictionaryGetValueIfPresent rest k

/-- The IOKit environment seen by genCsrConfigFromNvram:
  - nodeAvailable: IORegistryEntryFromPath on IODeviceTree:/options
    returned a handle other than MACH_PORT_NULL;
  - krSuccess: IORegistryEntryCreateCFProperties returned KERN_SUCCESS;
  - properties: the dictionary pointer stored through the out
    parameter, none modelling nullptr. -/
structure NvramEnv where
  nodeAvailable : Bool
  krSuccess : Bool
  properties : Option CFDictionary
deriving DecidableEq

/-- The 4-byte stack buffer after CFDataGetBytes: it is zero
initialized, and position i holds byte i of the data when the data is
long enough.  (Positions at index 4 and above of the C buffer do not
exist; see cfDataGetBytesWriteIndices for the range the call writes.) -/
def csrBuffer (bytes : List Nat) (i : Nat) : Nat :=
  (bytes.getD i 0) % 256

/-- The memcpy of the 4 buffer bytes into the uint32 config out
parameter, in host little-endian order. -/
def extractConfig (bytes : List Nat) : Nat :=
  csrBuffer bytes 0 + 256 * (csrBuffer bytes 1 + 256 * (csrBuffer bytes 2 + 256 * csrBuffer bytes 3))

/-- The buffer indices written by
CFDataGetBytes(data, CFRangeMake(0, CFDataGetLength(data)), buffer):
the call copies every byte of the data, writing indices 0 .. len-1 of
the destination. -/
def cfDataGetBytesWriteIndices (bytes : List Nat) : List Nat :=
  List.range bytes.length

/-- The declared size of the destination stack buffer
(unsigned char buffer[4]). -/
def csrConfigBufferSize : Nat := 4

/-- genCsrConfigFromNvram(uint32_t& config).  The Nat argument is the
value of the out parameter on entry; the returned pair is the Status
and the value of the out parameter on exit (the function writes it only
on the success-with-data path). -/
def genCsrConfigFromNvram (env : NvramEnv) (config : Nat) : Status × Nat :=
  if !env.nodeAvailable then
    (⟨1, "Could not open IOKit DeviceTree"⟩, config)
  else if !env.krSuccess then
    (⟨1, "Could not get IOKit options"⟩, config)
  else
    match env.properties with
    | none => (⟨1, "Could not load IOKit properties"⟩, config)
    | some properties =>
      match cfDictionaryGetValueIfPresent properties "csr-active-config" with
      | some v =>
        match v with
        | CFValue.data bytes => (⟨0, "ok"⟩, extractConfig bytes)
        | CFValue.other => (⟨1, "Unexpected data type for csr-active-config"⟩, config)
      | none => (⟨0, "csr-active-config key not found"⟩, config)

/-- Which OS handles a call to genCsrConfigFromNvram acquires and
releases on the path it takes. -/
structure HandleTrace where
  chosenAcquired : Bool
  chosenReleased : Bool
  propertiesAcquired : Bool
  propertiesReleased : Bool
deriving DecidableEq

/-- The handle discipline of genCsrConfigFromNvram, path by path:
  - the registry node handle (chosen) is acquired when the open
    succeeds and is released by the unconditional IOObjectRelease right
    after the properties fetch;
  - the properties dictionary is acquired when the fetch succeeds with
    a non-null pointer and is CFReleased only on the
    present-as-CFData path; the absent-key and wrong-type returns do
    not release it. -/
def genCsrConfigFromNvramHandles (env : NvramEnv) : HandleTrace :=
  if !env.nodeAvailable then
    ⟨false, false, false, false⟩
  else if !env.krSuccess then
    ⟨true, true, false, false⟩
  else
    match env.properties with
    | none => ⟨true, true, false, false⟩
    | some properties =>
      match cfDictionaryGetValueIfPresent properties "csr-active-config" with
      | some v =>
        match v with
        | CFValue.data _ => ⟨true, true, true, true⟩
        | CFValue.other => ⟨true, true, true, false⟩
      | none => ⟨true, true, true, false⟩

/-- kRootlessConfigFlags: the fixed flag catalogue.  It is a std::map
keyed by the flag name, so iteration order is lexicographic key
order. -/
def kRootlessConfigFlags : List (String × Nat) :=
  [("allow_apple_internal", 1 <<< 4),
   ("allow_device_configuration", 1 <<< 7),
   ("allow_kernel_debugger", 1 <<< 3),
   ("allow_task_for_pid", 1 <<< 2),
   ("allow_unrestricted_dtrace", 1 <<< 5),
   ("allow_unrestricted_fs", 1 <<< 1),
   ("allow_unrestricted_nvram", 1 <<< 6),
   ("allow_untrusted_kexts", 1 <<< 0)]

/-- valid_allowed_flags: the bitwise OR of every catalogue bit. -/
def validAllowedFlags : Nat :=
  kRootlessConfigFlags.foldl (fun acc kv => acc ||| kv.2) 0

/-- One record of the os_version table, with the two string fields the
code reads. -/
structure OsRecord where
  major : String
  minor : String
deriving DecidableEq

/-- Digit run to number, most significant first. -/
def digitsToNat (ds : List Char) : Nat :=
  ds.foldl (fun acc c => acc * 10 + (c.toNat - 48)) 0

/-- std::stoi: skip leading whitespace, read an optional sign, then a
nonempty digit run; throw invalid_argument when there is no digit, and
out_of_range when the value does not fit in int. -/
def stoi (s : String) : Except String Int :=
  let cs := s.data.dropWhile (fun c => c == ' ' || c == '\t' || c == '\n' || c == '\r')
  let signed : Int × List Char :=
    match cs with
    | '-' :: rest => (-1, rest)
    | '+' :: rest => (1, rest)
    | _ => (1, cs)
  let ds := signed.2.takeWhile Char.isDigit
  if ds.isEmpty then
    Except.error "stoi: invalid_argument"
  else
    let v : Int := signed.1 * (digitsToNat ds : Int)
    if v < -2147483648 ∨ 2147483647 < v then
      Except.error "stoi: out_of_range"
    else
      Except.ok v

/-- One emitted row.  The C++ Row is a string map; the three keys this
table ever sets are modelled as fields, with none meaning the key is
absent from the map. -/
structure Row where
  config_flag : String
  enabled : Option Nat
  enabled_nvram : Option Nat
deriving DecidableEq

/-- One iteration of the per-flag loop body acting on the shared
mutable row r: config_flag and enabled are always overwritten;
enabled_nvram is overwritten only when the nvram status was ok,
otherwise whatever the row already held stays. -/
def setFlagRow (c : Nat → Int) (nvOk : Bool) (nvConfig : Nat) (r : Row) (kv : String × Nat) : Row :=
  if nvOk then
    { config_flag := kv.1,
      enabled := some (if c kv.2 = 0 then 1 else 0),
      enabled_nvram := some (if nvConfig &&& kv.2 ≠ 0 then 1 else 0) }
  else
    { r with
      config_flag := kv.1,
      enabled := some (if c kv.2 = 0 then 1 else 0) }

/-- The per-flag loop: each iteration mutates the shared row and pushes
a copy, so the next iteration starts from the row it just built. -/
def perFlagRows (c : Nat → Int) (nvOk : Bool) (nvConfig : Nat) : Row → List (String × Nat) → List Row
  | _, [] => []
  | r, kv :: rest =>
    setFlagRow c nvOk nvConfig r kv ::
      perFlagRows c nvOk nvConfig (setFlagRow c nvOk nvConfig r kv) rest

/-- The aggregate "sip" row: enabled and enabled_nvram are 1 when the
active config is 0, are 0 when every set bit of the active config is a
catalogue bit, and are left unset otherwise. -/
def aggRow (config : Nat) : Row :=
  if config = 0 then
    { config_flag := "sip", enabled := some 1, enabled_nvram := some 1 }
  else if config ||| validAllowedFlags = validAllowedFlags then
    { config_flag := "sip", enabled := some 0, enabled_nvram := some 0 }
  else
    { config_flag := "sip", enabled := none, enabled_nvram := none }

/-- The whole environment a call to genSIPConfig observes:
  - osVersions: the rows of SQL::selectAllFrom on os_version;
  - the two Bool fields: whether the weakly linked symbols
    csr_get_active_config and csr_check are bound (non-null);
  - activeConfig: the value csr_get_active_config stores through its
    out parameter;
  - csrCheck: the return value of csr_check per mask;
  - nvram: the IOKit environment for genCsrConfigFromNvram. -/
structure SipEnv where
  osVersions : List OsRecord
  csrGetActiveConfigBound : Bool
  csrCheckBound : Bool
  activeConfig : Nat
  csrCheck : Nat → Int
  nvram : NvramEnv

/-- genSIPConfig after the version gate: bail out when either weakly
linked symbol is null, otherwise fetch the active config, build the
aggregate row, call genCsrConfigFromNvram with a zero-initialized out
parameter, and run the per-flag loop reusing the aggregate row. -/
def genSIPConfigBody (env : SipEnv) : List Row :=
  if !env.csrGetActiveConfigBound || !env.csrCheckBound then
    []
  else
    let config := env.activeConfig % 4294967296
    let nv := genCsrConfigFromNvram env.nvram 0
    aggRow config ::
      perFlagRows env.csrCheck (nv.1).ok nv.2 (aggRow config) kRootlessConfigFlags

/-- The version gate applied to the single os_version record: the &&
short-circuits, so std::stoi runs (and can throw) only when the major
field equals "10"; when it is "10" and the minor parses below 11 the
function returns no rows. -/
def genSIPConfigGate (env : SipEnv) (v : OsRecord) : Except String (List Row) :=
  if v.major = "10" then
    match stoi v.minor with
    | Except.error e => Except.error e
    | Except.ok m =>
      if m < 11 then Except.ok [] else Except.ok (genSIPConfigBody env)
  else
    Except.ok (genSIPConfigBody env)

/-- genSIPConfig: empty result unless os_version returned exactly one
record, then the version gate and the body.  A thrown std::stoi
exception propagates as Except.error. -/
def genSIPConfig (env : SipEnv) : Except String (List Row) :=
  match env.osVersions with
  | [v] => genSIPConfigGate env v
  | _ => Except.ok []


example : validAllowedFlags = 255 := rfl

example : stoi "10" = Except.ok 10 := rfl

example : stoi "beta" = Except.error "stoi: invalid_argument" := rfl

/-- With exactly one os_version record, genSIPConfig is the gated
computation on that record. -/
theorem genSIPConfig_eq_gate (env : SipEnv) (v : OsRecord)
    (hos : env.osVersions = [v]) :
    genSIPConfig env = genSIPConfigGate env v := by
  unfold genSIPConfig
  rw [hos]

/-- The gate on a record whose major is "10" and whose minor parses:
deny below 11, otherwise run the body. -/
theorem genSIPConfigGate_ok (env : SipEnv) (v : OsRecord) (m : Int)
    (hmaj : v.major = "10") (hm : stoi v.minor = Except.ok m) :
    genSIPConfigGate env v =
      if m < 11 then Except.ok [] else Except.ok (genSIPConfigBody env) := by
  unfold genSIPConfigGate
  rw [if_pos hmaj, hm]

/-- The gate on a record whose major is "10" and whose minor does not
parse propagates the stoi exception. -/
theorem genSIPConfigGate_error (env : SipEnv) (v : OsRecord) (e : String)
    (hmaj : v.major = "10") (hm : stoi v.minor = Except.error e) :
    genSIPConfigGate env v = Except.error e := by
  unfold genSIPConfigGate
  rw [if_pos hmaj, hm]

/-- The gate on a record whose major is not "10" runs the body without
consulting the minor field. -/
theorem genSIPConfigGate_other (env : SipEnv) (v : OsRecord)
    (hmaj : v.major ≠ "10") :
    genSIPConfigGate env v = Except.ok (genSIPConfigBody env) := by
  unfold genSIPConfigGate
  rw [if_neg hmaj]

/-- When the gate passes (major not "10", or minor parsing to at least
11), genSIPConfig runs the body. -/
theorem gate_pass (env : SipEnv) (v : OsRecord)
    (hos : env.osVersions = [v])
    (hgate : v.major = "10" → ∃ m, stoi v.minor = Except.ok m ∧ 11 ≤ m) :
    genSIPConfig env = Except.ok (genSIPConfigBody env) := by
  rw [genSIPConfig_eq_gate env v hos]
  by_cases hmaj : v.major = "10"
  · obtain ⟨m, hm, hm11⟩ := hgate hmaj
    rw [genSIPConfigGate_ok env v m hmaj hm, if_neg (not_lt.mpr hm11)]
  · exact genSIPConfigGate_other env v hmaj

/-- With both weakly linked symbols bound, the body is the aggregate
row followed by the per-flag loop. -/
theorem genSIPConfigBody_eq (env : SipEnv)
    (hb1 : env.csrGetActiveConfigBound = true)
    (hb2 : env.csrCheckBound = true) :
    genSIPConfigBody env =
      aggRow (env.activeConfig % 4294967296) ::
        perFlagRows env.csrCheck
          ((genCsrConfigFromNvram env.nvram 0).1).ok
          (genCsrConfigFromNvram env.nvram 0).2
          (aggRow (env.activeConfig % 4294967296)) kRootlessConfigFlags := by
  unfold genSIPConfigBody
  rw [hb1, hb2]
  rfl

/-- The per-flag loop emits one row per catalogue entry. -/
theorem perFlagRows_length (c : Nat → Int) (nvOk : Bool) (nvConfig : Nat)
    (r : Row) (flags : List (String × Nat)) :
    (perFlagRows c nvOk nvConfig r flags).length = flags.length := by
  induction flags generalizing r with
  | nil => rfl
  | cons kv rest ih => simp [perFlagRows, ih]

/-- Each loop iteration stamps the catalogue name into the row. -/
theorem setFlagRow_config_flag (c : Nat → Int) (nvOk : Bool) (nvConfig : Nat)
    (r : Row) (kv : String × Nat) :
    (setFlagRow c nvOk nvConfig r kv).config_flag = kv.1 := by
  unfold setFlagRow
  split <;> rfl

/-- The per-flag rows carry the catalogue names in catalogue order. -/
theorem perFlagRows_map_config_flag (c : Nat → Int) (nvOk : Bool) (nvConfig : Nat)
    (r : Row) (flags : List (String × Nat)) :
    (perFlagRows c nvOk nvConfig r flags).map Row.config_flag = flags.map Prod.fst := by
  induction flags generalizing r with
  | nil => rfl
  | cons kv rest ih => simp [perFlagRows, ih, setFlagRow_config_flag]

/-- When the nvram status is ok with a zero nvram config, every
per-flag row has enabled_nvram present and equal to 0. -/
theorem perFlagRows_enabled_nvram_zero (c : Nat → Int)
    (r : Row) (flags : List (String × Nat)) :
    ∀ row ∈ perFlagRows c true 0 r flags, row.enabled_nvram = some 0 := by
  induction flags generalizing r with
  | nil => intro row h; exact absurd h (List.not_mem_nil row)
  | cons kv rest ih =>
    intro row h
    rw [perFlagRows] at h
    rcases List.mem_cons.mp h with h1 | h2
    · subst h1
      simp [setFlagRow, Nat.zero_and]
    · exact ih _ row h2

/-- Inversion: a nonempty successful result comes from the body with
both symbols bound. -/
theorem genSIPConfig_ok_ne_nil (env : SipEnv) (rows : List Row)
    (h : genSIPConfig env = Except.ok rows) (hne : rows ≠ []) :
    rows = genSIPConfigBody env ∧
      env.csrGetActiveConfigBound = true ∧ env.csrCheckBound = true := by
  have hrows : rows = genSIPConfigBody env := by
    unfold genSIPConfig at h
    rcases henv : env.osVersions with _ | ⟨v, _ | ⟨w, tl⟩⟩
    · rw [henv] at h
      have h2 : (Except.ok [] : Except String (List Row)) = Except.ok rows := h
      injection h2 with h3
      exact absurd h3.symm hne
    · rw [henv] at h
      have hg : genSIPConfigGate env v = Except.ok rows := h
      by_cases hmaj : v.major = "10"
      · rcases hst : stoi v.minor with e | m
        · rw [genSIPConfigGate_error env v e hmaj hst] at hg
          cases hg
        · rw [genSIPConfigGate_ok env v m hmaj hst] at hg
          by_cases hlt : m < 11
          · rw [if_pos hlt] at hg
            injection hg with h3
            exact absurd h3.symm hne
          · rw [if_neg hlt] at hg
            injection hg with h3
            exact h3.symm
      · rw [genSIPConfigGate_other env v hmaj] at hg
        injection hg with h3
        exact h3.symm
    · rw [henv] at h
      have h2 : (Except.ok [] : Except String (List Row)) = Except.ok rows := h
      injection h2 with h3
      exact absurd h3.symm hne
  refine ⟨hrows, ?_, ?_⟩
  all_goals {
    by_contra hb
    rw [Bool.not_eq_true] at hb
    rw [hrows] at hne
    unfold genSIPConfigBody at hne
    simp [hb] at hne
  }

/-- Environment for the C1 counterexample: one record with major "11",
both symbols bound, active config 0, nvram dictionary readable and
empty. -/
def envC1 : SipEnv :=
  { osVersions := [⟨"11", "0"⟩],
    csrGetActiveConfigBound := true,
    csrCheckBound := true,
    activeConfig := 0,
    csrCheck := fun _ => 0,
    nvram := ⟨true, true, some []⟩ }

/-- The rows genSIPConfig emits at envC1. -/
def sipRowsC1 : List Row := genSIPConfigBody envC1

/-- Claim C1 counterexample: with one record whose major is "11" (a
major other than "10") and the live entry points bound, genSIPConfig
emits nine observations, not zero — the claim that every major other
than "10" denies is false on the code, which only denies when the
major is "10" and the minor is below 11. -/
theorem C1_counterexample :
    envC1.osVersions = [⟨"11", "0"⟩] ∧
    genSIPConfig envC1 = Except.ok sipRowsC1 ∧
    sipRowsC1.length = 9 := by
  refine ⟨rfl, rfl, ?_⟩
  decide

/-- Claim C1 (amended): given exactly one OS-version record and both
live entry points bound, genSIPConfig returns zero observations exactly
when the record's major is "10" and its minor parses below 11; a major
other than "10" passes the gate and observations are emitted. -/
theorem C1_version_gate (env : SipEnv) (v : OsRecord)
    (hos : env.osVersions = [v])
    (hb1 : env.csrGetActiveConfigBound = true)
    (hb2 : env.csrCheckBound = true) :
    genSIPConfig env = Except.ok [] ↔
      (v.major = "10" ∧ ∃ m, stoi v.minor = Except.ok m ∧ m < 11) := by
  rw [genSIPConfig_eq_gate env v hos]
  constructor
  · intro h
    by_cases hmaj : v.major = "10"
    · refine ⟨hmaj, ?_⟩
      rcases hst : stoi v.minor with e | m
      · rw [genSIPConfigGate_error env v e hmaj hst] at h
        cases h
      · refine ⟨m, rfl, ?_⟩
        by_contra hlt
        rw [genSIPConfigGate_ok env v m hmaj hst, if_neg hlt] at h
        injection h with h3
        rw [genSIPConfigBody_eq env hb1 hb2] at h3
        simp at h3
    · exfalso
      rw [genSIPConfigGate_other env v hmaj] at h
      injection h with h3
      rw [genSIPConfigBody_eq env hb1 hb2] at h3
      simp at h3
  · rintro ⟨hmaj, m, hm, hlt⟩
    rw [genSIPConfigGate_ok env v m hmaj hm, if_pos hlt]

/-- Environment for the C1 witness: major "10", minor "10". -/
def envC1W : SipEnv :=
  { osVersions := [⟨"10", "10"⟩],
    csrGetActiveConfigBound := true,
    csrCheckBound := true,
    activeConfig := 0,
    csrCheck := fun _ => 0,
    nvram := ⟨true, true, some []⟩ }

/-- Claim C1 witness: the amended gate at major "10", minor "10"
denies with zero observations. -/
theorem C1_witness : genSIPConfig envC1W = Except.ok [] :=
  (C1_version_gate envC1W ⟨"10", "10"⟩ rfl rfl rfl).mpr ⟨rfl, 10, rfl, by decide⟩

/-- Claim C2 (amended): when the gate passes, the entry points are
bound, the registry node and its dictionary are readable and the
csr-active-config property is absent, the persisted read succeeds with
value 0 (the non-error default), so each of the eight per-flag
observations carries enabled_nvram present and equal to 0 — the field
is not absent. -/
theorem C2_absent_property (env : SipEnv) (v : OsRecord) (d : CFDictionary)
    (hos : env.osVersions = [v])
    (hgate : v.major = "10" → ∃ m, stoi v.minor = Except.ok m ∧ 11 ≤ m)
    (hb1 : env.csrGetActiveConfigBound = true)
    (hb2 : env.csrCheckBound = true)
    (hnode : env.nvram.nodeAvailable = true)
    (hkr : env.nvram.krSuccess = true)
    (hprops : env.nvram.properties = some d)
    (habsent : cfDictionaryGetValueIfPresent d "csr-active-config" = none) :
    ∃ rows, genSIPConfig env = Except.ok rows ∧ rows.length = 9 ∧
      ∀ row ∈ rows.drop 1, row.enabled_nvram = some 0 := by
  have hnv : genCsrConfigFromNvram env.nvram 0 =
      (⟨0, "csr-active-config key not found"⟩, 0) := by
    unfold genCsrConfigFromNvram
    rw [hnode, hkr, hprops]
    simp [habsent]
  refine ⟨genSIPConfigBody env, gate_pass env v hos hgate, ?_, ?_⟩
  · rw [genSIPConfigBody_eq env hb1 hb2, List.length_cons, perFlagRows_length]
    rfl
  · rw [genSIPConfigBody_eq env hb1 hb2, hnv]
    simp only [List.drop_succ_cons, List.drop_zero]
    exact perFlagRows_enabled_nvram_zero env.csrCheck _ kRootlessConfigFlags

/-- Environment for C2: gate passes, symbols bound, dictionary
readable without the csr-active-config key. -/
def envC2 : SipEnv :=
  { osVersions := [⟨"10", "11"⟩],
    csrGetActiveConfigBound := true,
    csrCheckBound := true,
    activeConfig := 0,
    csrCheck := fun _ => 0,
    nvram := ⟨true, true, some [("boot-args", CFValue.other)]⟩ }

/-- Claim C2 witness: the amended statement at envC2. -/
theorem C2_witness :
    ∃ rows, genSIPConfig envC2 = Except.ok rows ∧ rows.length = 9 ∧
      ∀ row ∈ rows.drop 1, row.enabled_nvram = some 0 :=
  C2_absent_property envC2 ⟨"10", "11"⟩ [("boot-args", CFValue.other)] rfl
    (fun _ => ⟨11, rfl, le_refl 11⟩) rfl rfl rfl rfl rfl rfl

/-- The rows genSIPConfig emits at envC2. -/
def sipRowsC2 : List Row := genSIPConfigBody envC2

/-- Claim C2 counterexample: in the absent-property scenario the
persisted read returns a success status, so every per-flag observation
does have an enabled_nvram field (value 0), refuting the claimed
absence of the field. -/
theorem C2_counterexample :
    ((genCsrConfigFromNvram envC2.nvram 0).1).ok = true ∧
    genSIPConfig envC2 = Except.ok sipRowsC2 ∧
    ∀ row ∈ sipRowsC2.drop 1, row.enabled_nvram ≠ none := by
  refine ⟨rfl, rfl, ?_⟩
  decide

/-- Environment for C3: gate passes, symbols bound, active config 0,
nvram node unopenable so the persisted read fails hard. -/
def envC3 : SipEnv :=
  { osVersions := [⟨"10", "12"⟩],
    csrGetActiveConfigBound := true,
    csrCheckBound := true,
    activeConfig := 0,
    csrCheck := fun _ => 0,
    nvram := ⟨false, false, none⟩ }

/-- The rows genSIPConfig emits at envC3. -/
def sipRowsC3 : List Row := genSIPConfigBody envC3

/-- Claim C3 at the failing input: the persisted read fails, the nine
observations are still emitted, but every per-flag observation carries
enabled_nvram = some 1 copied from the reused aggregate row (the loop
never overwrites the field when the nvram status is not ok) — the
field is not absent as the claim and the spec intend. -/
theorem C3_stale_nvram_field :
    ((genCsrConfigFromNvram envC3.nvram 0).1).ok = false ∧
    genSIPConfig envC3 = Except.ok sipRowsC3 ∧
    sipRowsC3.length = 9 ∧
    ∀ row ∈ sipRowsC3.drop 1, row.enabled_nvram = some 1 := by
  refine ⟨rfl, rfl, rfl, ?_⟩
  decide

/-- Claim C4: in every resolution that emits observations, the first
observation is the aggregate "sip" row; its enabled and enabled_nvram
are 1 when the active config is 0, and are 0 when the active config is
nonzero with every set bit a catalogue bit. -/
theorem C4_aggregate_row (env : SipEnv) (rows : List Row)
    (h : genSIPConfig env = Except.ok rows) (hne : rows ≠ []) :
    (env.activeConfig % 4294967296 = 0 →
      rows.head? =
        some { config_flag := "sip", enabled := some 1, enabled_nvram := some 1 }) ∧
    (env.activeConfig % 4294967296 ≠ 0 →
      (env.activeConfig % 4294967296) ||| validAllowedFlags = validAllowedFlags →
      rows.head? =
        some { config_flag := "sip", enabled := some 0, enabled_nvram := some 0 }) := by
  obtain ⟨hrows, hb1, hb2⟩ := genSIPConfig_ok_ne_nil env rows h hne
  rw [hrows, genSIPConfigBody_eq env hb1 hb2]
  constructor
  · intro h0
    rw [List.head?_cons]
    simp only [aggRow]
    rw [if_pos h0]
  · intro h0 hsub
    rw [List.head?_cons]
    simp only [aggRow]
    rw [if_neg h0, if_pos hsub]

/-- Environment for the C4 witness: active config 1, whose only set
bit is the allow_untrusted_kexts catalogue bit. -/
def envC4 : SipEnv :=
  { osVersions := [⟨"10", "11"⟩],
    csrGetActiveConfigBound := true,
    csrCheckBound := true,
    activeConfig := 1,
    csrCheck := fun _ => 1,
    nvram := ⟨true, true, some []⟩ }

/-- The rows genSIPConfig emits at envC4. -/
def sipRowsC4 : List Row := genSIPConfigBody envC4

/-- Claim C4 witness: the aggregate-row theorem applied at envC4. -/
theorem C4_witness :
    (envC4.activeConfig % 4294967296 = 0 →
      sipRowsC4.head? =
        some { config_flag := "sip", enabled := some 1, enabled_nvram := some 1 }) ∧
    (envC4.activeConfig % 4294967296 ≠ 0 →
      (envC4.activeConfig % 4294967296) ||| validAllowedFlags = validAllowedFlags →
      sipRowsC4.head? =
        some { config_flag := "sip", enabled := some 0, enabled_nvram := some 0 }) :=
  C4_aggregate_row envC4 sipRowsC4 rfl (by decide)

/-- Claim C5: when a single record passes the version gate but either
weakly linked entry point is unbound, genSIPConfig returns zero
observations, whatever the nvram environment holds (a readable
persisted snapshot included). -/
theorem C5_unbound_symbols (env : SipEnv) (v : OsRecord)
    (hos : env.osVersions = [v])
    (hgate : v.major = "10" → ∃ m, stoi v.minor = Except.ok m ∧ 11 ≤ m)
    (hsym : env.csrGetActiveConfigBound = false ∨ env.csrCheckBound = false) :
    genSIPConfig env = Except.ok [] := by
  rw [gate_pass env v hos hgate]
  unfold genSIPConfigBody
  rcases hsym with hb | hb <;> simp [hb]

/-- Environment for the C5 witness: gate passes, csr_get_active_config
unbound, persisted property present and readable. -/
def envC5 : SipEnv :=
  { osVersions := [⟨"10", "11"⟩],
    csrGetActiveConfigBound := false,
    csrCheckBound := true,
    activeConfig := 0,
    csrCheck := fun _ => 0,
    nvram := ⟨true, true, some [("csr-active-config", CFValue.data [16, 0, 0, 0])]⟩ }

/-- Claim C5 witness: zero observations at envC5 even though the
persisted snapshot is readable. -/
theorem C5_witness : genSIPConfig envC5 = Except.ok [] :=
  C5_unbound_symbols envC5 ⟨"10", "11"⟩ rfl (fun _ => ⟨11, rfl, le_refl 11⟩)
    (Or.inl rfl)

/-- The nvram environment of the C6 counterexample: node open, fetch
succeeded, dictionary non-null but empty. -/
def nvEnvC6 : NvramEnv := ⟨true, true, some []⟩

/-- Claim C6 counterexample: the claim lists a null/empty dictionary
among the failing cases, but on a non-null empty dictionary the lookup
misses and genCsrConfigFromNvram returns the success status of the
absent-key path. -/
theorem C6_counterexample :
    nvEnvC6.properties = some [] ∧
    (genCsrConfigFromNvram nvEnvC6 0).1 =
      ⟨0, "csr-active-config key not found"⟩ :=
  ⟨rfl, rfl⟩

/-- Claim C6 (amended): genCsrConfigFromNvram returns a failing status
exactly when the node cannot be opened, the properties cannot be
fetched, the fetched dictionary pointer is null, or the property is
present with a non-CFData type; a non-null empty dictionary is not an
error — the property is simply absent and the reader succeeds. -/
theorem C6_raises_iff (env : NvramEnv) (c : Nat) :
    ((genCsrConfigFromNvram env c).1).ok = false ↔
      (env.nodeAvailable = false ∨ env.krSuccess = false ∨ env.properties = none ∨
        ∃ d v, env.properties = some d ∧
          cfDictionaryGetValueIfPresent d "csr-active-config" = some v ∧
          v.isData = false) := by
  unfold genCsrConfigFromNvram
  cases hnode : env.nodeAvailable with
  | false => simp [Status.ok, hnode]
  | true =>
    cases hkr : env.krSuccess with
    | false => simp [Status.ok, hkr]
    | true =>
      cases hp : env.properties with
      | none => simp [Status.ok, hp]
      | some d =>
        cases hv : cfDictionaryGetValueIfPresent d "csr-active-config" with
        | none => simp [Status.ok, hp, hv]
        | some v =>
          cases v with
          | data bytes => simp [Status.ok, hp, hv, CFValue.isData]
          | other => simp [Status.ok, hp, hv, CFValue.isData]

/-- A 5-byte csr-active-config value for C7. -/
def csrDataC7 : List Nat := [16, 0, 0, 0, 1]

/-- Claim C7 at the failing input: CFDataGetBytes is called with the
full data length, so on a 5-byte property value the call writes buffer
index 4, outside the 4-byte stack buffer — more than 4 bytes are
copied, and the reader still takes this path (success status). -/
theorem C7_unbounded_copy :
    cfDataGetBytesWriteIndices csrDataC7 = [0, 1, 2, 3, 4] ∧
    ¬ (∀ i ∈ cfDataGetBytesWriteIndices csrDataC7, i < csrConfigBufferSize) ∧
    ((genCsrConfigFromNvram
        ⟨true, true, some [("csr-active-config", CFValue.data csrDataC7)]⟩ 0).1).ok
      = true := by
  refine ⟨rfl, ?_, rfl⟩
  decide

/-- The nvram environment of the C8 leak: dictionary readable, key
absent. -/
def nvEnvC8 : NvramEnv := ⟨true, true, some [("boot-args", CFValue.other)]⟩

/-- Claim C8 at the failing inputs: on the absent-key success path and
on the wrong-type error path the properties dictionary was acquired
but is never released before returning, so the release-on-every-exit
claim fails on the code. -/
theorem C8_leaked_properties :
    genCsrConfigFromNvramHandles nvEnvC8 =
      { chosenAcquired := true, chosenReleased := true,
        propertiesAcquired := true, propertiesReleased := false } ∧
    ((genCsrConfigFromNvram nvEnvC8 0).1).ok = true ∧
    genCsrConfigFromNvramHandles
        ⟨true, true, some [("csr-active-config", CFValue.other)]⟩ =
      { chosenAcquired := true, chosenReleased := true,
        propertiesAcquired := true, propertiesReleased := false } :=
  ⟨rfl, rfl, rfl⟩

/-- Claim C9: with exactly one record whose major is "10" and whose
minor does not parse, the std::stoi exception propagates out of
genSIPConfig instead of a zero-observation denial. -/
theorem C9_stoi_propagates (env : SipEnv) (v : OsRecord) (e : String)
    (hos : env.osVersions = [v]) (hmaj : v.major = "10")
    (hmin : stoi v.minor = Except.error e) :
    genSIPConfig env = Except.error e := by
  rw [genSIPConfig_eq_gate env v hos]
  exact genSIPConfigGate_error env v e hmaj hmin

/-- Environment for the C9 witness: minor "beta" does not parse. -/
def envC9 : SipEnv :=
  { osVersions := [⟨"10", "beta"⟩],
    csrGetActiveConfigBound := true,
    csrCheckBound := true,
    activeConfig := 0,
    csrCheck := fun _ => 0,
    nvram := ⟨true, true, some []⟩ }

/-- Claim C9 witness: the propagated exception at minor "beta". -/
theorem C9_witness : genSIPConfig envC9 = Except.error "stoi: invalid_argument" :=
  C9_stoi_propagates envC9 ⟨"10", "beta"⟩ "stoi: invalid_argument" rfl rfl rfl

/-- Claim C10: when the gate passes, the symbols are bound and the
active config is nonzero with a bit outside the catalogue union, the
first observation is the "sip" row with neither enabled nor
enabled_nvram set, followed by the eight per-flag observations in
catalogue order. -/
theorem C10_ambiguous_aggregate (env : SipEnv) (v : OsRecord)
    (hos : env.osVersions = [v])
    (hgate : v.major = "10" → ∃ m, stoi v.minor = Except.ok m ∧ 11 ≤ m)
    (hb1 : env.csrGetActiveConfigBound = true)
    (hb2 : env.csrCheckBound = true)
    (hcfg : env.activeConfig % 4294967296 ≠ 0)
    (hinv : (env.activeConfig % 4294967296) ||| validAllowedFlags ≠ validAllowedFlags) :
    ∃ rest, genSIPConfig env =
        Except.ok ({ config_flag := "sip", enabled := none, enabled_nvram := none } :: rest) ∧
      rest.length = 8 ∧
      rest.map Row.config_flag = kRootlessConfigFlags.map Prod.fst := by
  have hagg : aggRow (env.activeConfig % 4294967296) =
      { config_flag := "sip", enabled := none, enabled_nvram := none } := by
    simp only [aggRow]
    rw [if_neg hcfg, if_neg hinv]
  refine ⟨perFlagRows env.csrCheck
      ((genCsrConfigFromNvram env.nvram 0).1).ok
      (genCsrConfigFromNvram env.nvram 0).2
      { config_flag := "sip", enabled := none, enabled_nvram := none }
      kRootlessConfigFlags, ?_, ?_, ?_⟩
  · rw [gate_pass env v hos hgate, genSIPConfigBody_eq env hb1 hb2, hagg]
  · rw [perFlagRows_length]
    rfl
  · exact perFlagRows_map_config_flag _ _ _ _ _

/-- Environment for the C10 witness: active config 256, a bit outside
the catalogue union. -/
def envC10 : SipEnv :=
  { osVersions := [⟨"10", "11"⟩],
    csrGetActiveConfigBound := true,
    csrCheckBound := true,
    activeConfig := 256,
    csrCheck := fun _ => 0,
    nvram := ⟨true, true, some []⟩ }

/-- Claim C10 witness: the ambiguous aggregate at active config 256. -/
theorem C10_witness :
    ∃ rest, genSIPConfig envC10 =
        Except.ok ({ config_flag := "sip", enabled := none, enabled_nvram := none } :: rest) ∧
      rest.length = 8 ∧
      rest.map Row.config_flag = kRootlessConfigFlags.map Prod.fst :=
  C10_ambiguous_aggregate envC10 ⟨"10", "11"⟩ rfl (fun _ => ⟨11, rfl, le_refl 11⟩)
    rfl rfl (by decide) (by decide)
